import Mathlib

/-!
Shallow embedding of the Zabbix Host Creator backend (`app.py`, class
`ZabbixAPI`).  Every remote HTTP call made through `requests.post` is
modelled by an explicit `RpcResponse` value supplied to the embedded
function: the constructor `exn` stands for any exception raised inside the
`try` block (network error, timeout, JSON decode failure, ...), `http`
stands for a completed HTTP exchange carrying a status code and a JSON-RPC
body that either has a `result` field or does not (in which case the code
reads the optional `error` object).  The mutable `self.auth_token`
attribute is threaded explicitly as an `Option String` (`none` = attribute
still `None`).  Python truthiness of the token and of IP strings matters in
the source (`if not self.auth_token`, `if not ip_address`) and is modelled
by `pyTruthy` / `pyTruthyOpt`.  `int(...)` conversions that can raise are
modelled in `Except`, so `mass_update_interfaces` returns
`Except String MassState`.
-/

/-- Outcome of one `requests.post` call as observed by the calling code:
either an exception raised inside the `try` block, or an HTTP response with
a status code and a JSON-RPC body. -/
inductive RpcBody (α : Type) where
  | result (r : α)
  | error (data : Option String) (message : Option String)
deriving Repr, DecidableEq

inductive RpcResponse (α : Type) where
  | exn (msg : String)
  | http (status : Nat) (body : RpcBody α)
deriving Repr, DecidableEq

/-- Python truthiness of a string: `bool(s)` is `False` exactly for `""`. -/
def pyTruthy (s : String) : Bool := s != ""

/-- Python truthiness of an optional string (`None` and `""` are falsy). -/
def pyTruthyOpt : Option String → Bool
  | none => false
  | some s => pyTruthy s

/-- The characters stripped by Python's `str.strip()` (ASCII subset). -/
def pyWs (c : Char) : Bool :=
  c = ' ' || c = '\t' || c = '\n' || c = '\r' || c = '\x0b' || c = '\x0c'

/-- Python `s.strip()`: remove leading and trailing whitespace. -/
def pyStrip (s : String) : String :=
  String.mk (((s.data.dropWhile pyWs).reverse.dropWhile pyWs).reverse)

/-- Python `int(s)` restricted to what the code feeds it (interface-type
strings from the wire): surrounding whitespace is ignored, an optional
sign is allowed, and anything that is not then a non-empty digit string
raises `ValueError`. -/
def pyInt (s : String) : Except String Int :=
  let digits : List Char → Except String Int := fun ds =>
    if ds ≠ [] ∧ ds.all Char.isDigit then
      .ok (ds.foldl (fun acc c => acc * 10 + (c.toNat - 48 : Int)) 0)
    else
      .error ("invalid literal for int with base 10: " ++ s)
  match (pyStrip s).data with
  | '-' :: ds => (digits ds).map (fun n => -n)
  | '+' :: ds => digits ds
  | ds => digits ds

/-- `authenticate` (app.py lines 56-92) given the outcome of the login
POST and the current `self.auth_token`; returns the `bool` result and the
token afterwards. -/
def authenticate (resp : RpcResponse String) (tok : Option String) :
    Bool × Option String :=
  match resp with
  | .exn _ => (false, tok)
  | .http status body =>
    if status == 200 then
      match body with
      | .result r => (true, some r)
      | .error _ _ => (false, tok)
    else
      (false, tok)

/-- Default ports per interface type (app.py lines 185-190). -/
def default_ports (t : Int) : Option String :=
  if t = 1 then some "10050"
  else if t = 2 then some "161"
  else if t = 3 then some "623"
  else if t = 4 then some "12345"
  else none

/-- `interface_type_names` lookup with default `"Unknown"` (line 249). -/
def interfaceTypeName (t : Int) : String :=
  if t = 1 then "Agent"
  else if t = 2 then "SNMP"
  else if t = 3 then "IPMI"
  else if t = 4 then "JMX"
  else "Unknown"

/-- `port = interface_port if interface_port else
default_ports.get(interface_type, "10050")` (line 193): a falsy
(`None`/empty) explicit port falls back to the type's default. -/
def pyPort (interface_port : Option String) (interface_type : Int) : String :=
  match interface_port with
  | some p => if pyTruthy p then p else (default_ports interface_type).getD "10050"
  | none => (default_ports interface_type).getD "10050"

/-- The `host.create` request the client submits: the fields of the
payload that the claims talk about (lines 196-235). -/
structure CreateRequest where
  host : String
  name : String
  groupid : String
  itype : Int
  ip : String
  port : String
deriving Repr, DecidableEq

/-- `create_host` (lines 178-263).  `authResp` feeds the auto-`authenticate`
taken when the token is falsy; `resp` is the outcome of the `host.create`
POST, whose `result` carries the `hostids` list.  Returns the
`(success, message)` pair, the token afterwards, and the request that was
actually submitted (`none` when the call never reached the POST). -/
def create_host (authResp : RpcResponse String)
    (resp : RpcResponse (List String)) (tok : Option String)
    (hostname ip_address group_id : String) (interface_type : Int)
    (interface_port : Option String) :
    (Bool × String) × Option String × Option CreateRequest :=
  -- `if not self.auth_token: if not self.authenticate(): return ...`
  let auth : Bool × Option String :=
    if pyTruthyOpt tok then (true, tok) else authenticate authResp tok
  if !auth.1 then
    ((false, "Authentication failed"), auth.2, none)
  else
    let tok := auth.2
    -- `port = interface_port if interface_port else default_ports.get(...)`
    let port : String := pyPort interface_port interface_type
    let req : CreateRequest :=
      { host := hostname, name := hostname, groupid := group_id,
        itype := interface_type, ip := ip_address, port := port }
    match resp with
    | .exn e =>
      ((false, "Exception creating host " ++ hostname ++ ": " ++ e), tok, some req)
    | .http status body =>
      if status == 200 then
        match body with
        | .result hostids =>
          match hostids with
          | _ :: _ =>
            ((true, "Host " ++ hostname ++ " created successfully with "
                ++ interfaceTypeName interface_type ++ " interface"),
             tok, some req)
          | [] =>
            -- `result['result']['hostids'][0]` raises IndexError, caught
            -- by the enclosing `except`.
            ((false, "Exception creating host " ++ hostname
                ++ ": list index out of range"), tok, some req)
        | .error data _ =>
          ((false, "Error creating host " ++ hostname ++ ": "
              ++ data.getD "Unknown error"), tok, some req)
      else
        ((false, "HTTP error creating host " ++ hostname), tok, some req)

/-- Python `f"{i:02d}"` for the non-negative indices used by the batch
loop: zero-pad to a minimum width of two. -/
def fmt02 (n : Nat) : String :=
  if n < 10 then "0" ++ toString n else toString n

/-- One entry of the `results` list built by `create_multiple_hosts`. -/
structure BatchResult where
  hostname : String
  ip : String
  success : Bool
  message : String
deriving Repr, DecidableEq

/-- The transport outcomes available to one iteration of the batch loop:
the (possible) re-authentication POST and the `host.create` POST. -/
structure BatchItemEnv where
  authResp : RpcResponse String
  createResp : RpcResponse (List String)

/-- Loop body state of `create_multiple_hosts`: accumulated results, the
submitted requests (one `Option CreateRequest` per input, in order), and
the threaded token. -/
def createMultipleGo (envs : Nat → BatchItemEnv) (base_hostname : String)
    (group_id : String) (use_ip_as_hostname : Bool) (interface_type : Int)
    (interface_port : Option String) :
    Nat → Option String → List String →
      List BatchResult × List (Option CreateRequest) × Option String
  | _, tok, [] => ([], [], tok)
  | i, tok, ip :: rest =>
    let ip_clean := pyStrip ip
    let hostname :=
      if use_ip_as_hostname then ip_clean
      else base_hostname ++ "-" ++ fmt02 i
    let env := envs i
    let r := create_host env.authResp env.createResp tok hostname ip_clean
      group_id interface_type interface_port
    let rec' := createMultipleGo envs base_hostname group_id
      use_ip_as_hostname interface_type interface_port (i + 1) r.2.1 rest
    (⟨hostname, ip_clean, r.1.1, r.1.2⟩ :: rec'.1, r.2.2 :: rec'.2.1, rec'.2.2)

/-- `create_multiple_hosts` (lines 376-398): iterate the IP list with
`enumerate(ip_list, 1)`, strip each address, derive the hostname, call
`create_host`, and append one result record per input. -/
def create_multiple_hosts (envs : Nat → BatchItemEnv) (tok : Option String)
    (base_hostname : String) (ip_list : List String) (group_id : String)
    (use_ip_as_hostname : Bool) (interface_type : Int)
    (interface_port : Option String) :
    List BatchResult × List (Option CreateRequest) × Option String :=
  createMultipleGo envs base_hostname group_id use_ip_as_hostname
    interface_type interface_port 1 tok ip_list

/-- A host group record as returned by `hostgroup.get`. -/
structure HostGroup where
  groupid : String
  name : String
deriving Repr, DecidableEq

/-- A host interface as returned by `host.get` with
`selectInterfaces = [interfaceid, ip, dns, port, type, main]`: every field
is a wire string. -/
structure Iface where
  interfaceid : String
  ip : String
  dns : String
  port : String
  type : String
  main : String
deriving Repr, DecidableEq

/-- A host record as returned by `host.get` with nested interfaces. -/
structure Host where
  hostid : String
  name : String
  interfaces : List Iface
deriving Repr, DecidableEq

/-- `get_host_groups` (lines 94-133): auto-authenticate when the token is
falsy, then POST `hostgroup.get`; every failure path returns `[]`. -/
def get_host_groups (authResp : RpcResponse String)
    (resp : RpcResponse (List HostGroup)) (tok : Option String) :
    List HostGroup × Option String :=
  let auth : Bool × Option String :=
    if pyTruthyOpt tok then (true, tok) else authenticate authResp tok
  if !auth.1 then ([], auth.2)
  else
    match resp with
    | .exn _ => ([], auth.2)
    | .http status body =>
      if status == 200 then
        match body with
        | .result groups => (groups, auth.2)
        | .error _ _ => ([], auth.2)
      else ([], auth.2)

/-- `get_hosts_by_group` (lines 135-176): same contract as
`get_host_groups`, returning the host list with nested interfaces. -/
def get_hosts_by_group (authResp : RpcResponse String)
    (resp : RpcResponse (List Host)) (tok : Option String)
    (group_id : String) : List Host × Option String :=
  let auth : Bool × Option String :=
    if pyTruthyOpt tok then (true, tok) else authenticate authResp tok
  if !auth.1 then ([], auth.2)
  else
    match resp with
    | .exn _ => ([], auth.2)
    | .http status body =>
      if status == 200 then
        match body with
        | .result hosts => (hosts, auth.2)
        | .error _ _ => ([], auth.2)
      else ([], auth.2)

/-- `add_interface_to_host` (lines 265-334): returns `(success, message)`
and the token afterwards.  The `result` of `hostinterface.create` carries
the `interfaceids` list. -/
def add_interface_to_host (authResp : RpcResponse String)
    (resp : RpcResponse (List String)) (tok : Option String)
    (host_id : String) (interface_type : Int) (ip_address port : String)
    (is_main : Bool) : (Bool × String) × Option String :=
  let auth : Bool × Option String :=
    if pyTruthyOpt tok then (true, tok) else authenticate authResp tok
  if !auth.1 then ((false, "Authentication failed"), auth.2)
  else
    match resp with
    | .exn e => ((false, "Exception: " ++ e), auth.2)
    | .http status body =>
      if status == 200 then
        match body with
        | .result interfaceids =>
          match interfaceids with
          | _ :: _ => ((true, "Interface added successfully"), auth.2)
          | [] =>
            ((false, "Exception: list index out of range"), auth.2)
        | .error data message =>
          -- `error_msg.get('data', error_msg.get('message', 'Unknown error'))`
          ((false, "Error: " ++ (data.getD (message.getD "Unknown error"))),
             auth.2)
      else ((false, "HTTP error occurred"), auth.2)

/-- `remove_interface_from_host` (lines 336-374): returns
`(success, message)` and the token afterwards. -/
def remove_interface_from_host (authResp : RpcResponse String)
    (resp : RpcResponse (List String)) (tok : Option String)
    (interface_id : String) : (Bool × String) × Option String :=
  let auth : Bool × Option String :=
    if pyTruthyOpt tok then (true, tok) else authenticate authResp tok
  if !auth.1 then ((false, "Authentication failed"), auth.2)
  else
    match resp with
    | .exn e => ((false, "Exception: " ++ e), auth.2)
    | .http status body =>
      if status == 200 then
        match body with
        | .result _ => ((true, "Interface removed successfully"), auth.2)
        | .error data _ =>
          ((false, "Error: " ++ data.getD "Unknown error"), auth.2)
      else ((false, "HTTP error occurred"), auth.2)

/-- Python `any(gen)` over a fallible predicate: short-circuits at the
first `True`, propagating the first exception met before that. -/
def exAny (p : α → Except String Bool) : List α → Except String Bool
  | [] => .ok false
  | a :: as =>
    match p a with
    | .error e => .error e
    | .ok b => if b then .ok true else exAny p as

/-- A Python list comprehension with a fallible filter predicate: evaluates
the predicate on every element in order, propagating the first exception. -/
def exFilter (p : α → Except String Bool) : List α → Except String (List α)
  | [] => .ok []
  | a :: as =>
    match p a with
    | .error e => .error e
    | .ok b =>
      match exFilter p as with
      | .error e => .error e
      | .ok rest => .ok (if b then a :: rest else rest)

/-- The predicate of `interface_exists` (line 423):
`int(iface['type']) == interface_type`. -/
def typeMatches (t : Int) (iface : Iface) : Except String Bool :=
  match pyInt iface.type with
  | .ok v => .ok (v == t)
  | .error e => .error e

/-- The predicate of `has_main_interface` (lines 427-430):
`int(iface['type']) == interface_type and iface['main'] == '1'`. -/
def mainMatches (t : Int) (iface : Iface) : Except String Bool :=
  match pyInt iface.type with
  | .ok v => .ok (v == t && iface.main == "1")
  | .error e => .error e

/-- The predicate of `interfaces_to_remove` (lines 467-470):
`int(iface['type']) == interface_type and iface['main'] == '0'`. -/
def removeMatches (t : Int) (iface : Iface) : Except String Bool :=
  match pyInt iface.type with
  | .ok v => .ok (v == t && iface.main == "0")
  | .error e => .error e

/-- The IP-sourcing block of the `add` branch (lines 411-419): the IP of
the first Agent-type (`type == '1'`) interface; if that is falsy (absent
or `""`) and the interface list is non-empty, the first interface's IP. -/
def sourceIp (interfaces : List Iface) : Option String :=
  let ip0 := (interfaces.find? (fun i => i.type == "1")).map (fun i => i.ip)
  if pyTruthyOpt ip0 then ip0
  else
    match interfaces with
    | [] => ip0
    | f :: _ => some f.ip

/-- One entry of the `results` list built by `mass_update_interfaces`. -/
structure MassResult where
  host_name : String
  operation : String
  interface_type : Int
  ip : String
  success : Bool
  message : String
deriving Repr, DecidableEq

/-- One `hostinterface.create` call issued by `mass_update_interfaces`,
with the arguments passed to `add_interface_to_host`. -/
structure AddCall where
  host_id : String
  interface_type : Int
  ip : String
  port : String
  is_main : Bool
deriving Repr, DecidableEq

/-- The transport outcomes available to one `add_interface_to_host` or
`remove_interface_from_host` call inside the mass-update loop. -/
structure CallEnv where
  authResp : RpcResponse String
  resp : RpcResponse (List String)

/-- Threaded state of the `mass_update_interfaces` loop: accumulated
results, the interface-create and interface-delete calls issued so far,
the session token, and the number of unit calls made (used to index the
environment). -/
structure MassState where
  results : List MassResult
  addCalls : List AddCall
  removeCalls : List String
  tok : Option String
  calls : Nat
deriving Repr, DecidableEq

/-- The body of the `for interface in interfaces_to_remove` loop (lines
473-482): one `remove_interface_from_host` call and one result record per
candidate interface. -/
def removeFoldStep (callEnvs : Nat → CallEnv) (interface_type : Int)
    (host_name : String) (s : MassState) (iface : Iface) : MassState :=
  let env := callEnvs s.calls
  let r := remove_interface_from_host env.authResp env.resp s.tok
    iface.interfaceid
  { results := s.results ++
      [⟨host_name, "remove", interface_type, iface.ip, r.1.1, r.1.2⟩],
    addCalls := s.addCalls,
    removeCalls := s.removeCalls ++ [iface.interfaceid],
    tok := r.2, calls := s.calls + 1 }

/-- One iteration of the `for host in hosts` loop of
`mass_update_interfaces` (lines 405-491). -/
def massStep (callEnvs : Nat → CallEnv) (interface_type : Int)
    (port operation : String) (st : MassState) (host : Host) :
    Except String MassState :=
  let interfaces := host.interfaces
  if operation == "add" then
    let ip_address := sourceIp interfaces
    if pyTruthyOpt ip_address then
      let ipv := ip_address.getD ""
      match exAny (typeMatches interface_type) interfaces with
      | .error e => .error e
      | .ok interface_exists =>
        if !interface_exists then
          match exAny (mainMatches interface_type) interfaces with
          | .error e => .error e
          | .ok has_main_interface =>
            let is_main := !has_main_interface
            let env := callEnvs st.calls
            let r := add_interface_to_host env.authResp env.resp st.tok
              host.hostid interface_type ipv port is_main
            .ok { results := st.results ++
                    [⟨host.name, "add", interface_type, ipv, r.1.1, r.1.2⟩],
                  addCalls := st.addCalls ++
                    [⟨host.hostid, interface_type, ipv, port, is_main⟩],
                  removeCalls := st.removeCalls,
                  tok := r.2, calls := st.calls + 1 }
        else
          .ok { st with results := st.results ++
                  [⟨host.name, "add", interface_type, ipv, false,
                    "Interface type already exists"⟩] }
    else
      .ok { st with results := st.results ++
              [⟨host.name, "add", interface_type, "N/A", false,
                "No IP address found"⟩] }
  else if operation == "remove" then
    match exFilter (removeMatches interface_type) interfaces with
    | .error e => .error e
    | .ok interfaces_to_remove =>
      match interfaces_to_remove with
      | [] =>
        .ok { st with results := st.results ++
                [⟨host.name, "remove", interface_type, "N/A", false,
                  "No removable interface found"⟩] }
      | _ :: _ =>
        .ok (interfaces_to_remove.foldl
          (removeFoldStep callEnvs interface_type host.name) st)
  else
    .ok st

/-- The `for host in hosts` loop: stop at the first uncaught exception,
otherwise thread the state through `massStep` host by host. -/
def massLoop (callEnvs : Nat → CallEnv) (interface_type : Int)
    (port operation : String) : MassState → List Host →
    Except String MassState
  | st, [] => .ok st
  | st, host :: rest =>
    match massStep callEnvs interface_type port operation st host with
    | .error e => .error e
    | .ok st' => massLoop callEnvs interface_type port operation st' rest

/-- `mass_update_interfaces` (lines 400-493): fetch the group's hosts (with
that call's own transport outcome `ghEnv`), then run the per-host loop.
An uncaught `int(...)` failure surfaces as `Except.error`. -/
def mass_update_interfaces (ghEnv : CallEnv)
    (hostsResp : RpcResponse (List Host)) (callEnvs : Nat → CallEnv)
    (tok : Option String) (group_id : String) (interface_type : Int)
    (port operation : String) : Except String MassState :=
  let gh := get_hosts_by_group ghEnv.authResp hostsResp tok group_id
  massLoop callEnvs interface_type port operation
    { results := [], addCalls := [], removeCalls := [],
      tok := gh.2, calls := 0 } gh.1

/-- `pat` occurs as a contiguous substring of `s`. -/
def listContainsSub (pat : List Char) : List Char → Bool
  | [] => pat.isEmpty
  | c :: t => pat.isPrefixOf (c :: t) || listContainsSub pat t

def strContains (s pat : String) : Bool :=
  listContainsSub pat.data s.data

/-- The candidate interfaces of the `remove` branch, computed without the
exception effect: interfaces of the requested type (numeric wire string)
that are not flagged main.  Agrees with `exFilter (removeMatches t)`
whenever the latter succeeds. -/
def removableIfaces (t : Int) (h : Host) : List Iface :=
  h.interfaces.filter (fun i =>
    match pyInt i.type with
    | .ok v => v == t && i.main == "0"
    | .error _ => false)

/-- The single failure record emitted for a host with no removable
interface (lines 484-491). -/
def noRemovableRec (t : Int) (h : Host) : MassResult :=
  ⟨h.name, "remove", t, "N/A", false, "No removable interface found"⟩

/-- The environment-independent result record of the `add` branch, when
there is one: the `already exists` record (lines 447-454) and the
`No IP address found` record (lines 456-463).  `none` when the branch
issues an `add_interface_to_host` call (whose success and message depend
on the transport). -/
def addFixedResult (t : Int) (h : Host) : Option MassResult :=
  let ip := sourceIp h.interfaces
  if pyTruthyOpt ip then
    match exAny (typeMatches t) h.interfaces with
    | .ok true => some ⟨h.name, "add", t, ip.getD "", false,
        "Interface type already exists"⟩
    | _ => none
  else
    some ⟨h.name, "add", t, "N/A", false, "No IP address found"⟩

/-- The `hostinterface.create` call the `add` branch issues for a host, if
any: only when the sourced address is truthy and no interface of the
requested type exists; the new interface is main exactly when the host has
no main interface of that type (lines 421-445). -/
def addDecision (t : Int) (port : String) (h : Host) : Option AddCall :=
  let ip := sourceIp h.interfaces
  if pyTruthyOpt ip then
    match exAny (typeMatches t) h.interfaces with
    | .ok false =>
      some ⟨h.hostid, t, ip.getD "", port,
        match exAny (mainMatches t) h.interfaces with
        | .ok b => !b
        | .error _ => true⟩
    | _ => none
  else
    none

/-- C10: For every login outcome and every prior token, either the login
succeeded or `authenticate` leaves `self.auth_token` exactly as it was: a
failed (re-)authentication never clears or overwrites an existing token,
and the token is only ever written by a successful login. -/
theorem auth_failure_keeps_token (r : RpcResponse String)
    (tok : Option String) :
    (authenticate r tok).1 = true ∨ (authenticate r tok).2 = tok := by
  rcases r with e | ⟨s, b⟩
  · right; rfl
  · rcases b with t | ⟨d, m⟩
    · by_cases hs : s = 200
      · subst hs; left; rfl
      · right; simp [authenticate, hs]
    · right
      by_cases hs : s = 200
      · subst hs; rfl
      · simp [authenticate, hs]

/-- C8 counterexample: a login answered with HTTP 200 and a `result` field
holding the empty string makes `authenticate` return `True` while storing
an *empty* session token, contradicting "returns true and stores a
non-empty session token exactly when the remote login succeeds (HTTP 200
with a result field)". -/
theorem authenticate_empty_token_cex :
    (authenticate (.http 200 (.result "")) none).1 = true ∧
    (authenticate (.http 200 (.result "")) none).2 = some "" ∧
    pyTruthyOpt (authenticate (.http 200 (.result "")) none).2 = false := by
  refine ⟨rfl, rfl, rfl⟩

/-- C8 (amended): `authenticate()` returns true exactly when the remote
login succeeds (HTTP 200 with a `result` field), and then stores that
`result` field as the session token (overwriting any prior token; the
token is non-empty whenever the remote session id is); on any transport
error, non-200 response, or error field it returns false and the token is
left exactly as it was (in particular unset from the unauthenticated
state); calling it repeatedly is safe: a repeated call with the same
outcome returns the same success value. -/
theorem authenticate_token_contract (r : RpcResponse String)
    (tok : Option String) :
    ((authenticate r tok).1 = true ↔
      ∃ t, r = RpcResponse.http 200 (.result t)) ∧
    (∀ t, r = RpcResponse.http 200 (.result t) →
      authenticate r tok = (true, some t)) ∧
    ((authenticate r tok).1 = false → (authenticate r tok).2 = tok) ∧
    (authenticate r ((authenticate r tok).2)).1 = (authenticate r tok).1 := by
  rcases r with e | ⟨s, b⟩
  · exact ⟨by simp [authenticate], by simp, fun _ => rfl, rfl⟩
  · rcases b with t | ⟨d, m⟩
    · by_cases hs : s = 200
      · subst hs
        exact ⟨by simp [authenticate], by rintro t' ⟨rfl⟩; rfl,
          by intro h; exact absurd h (by simp [authenticate]), rfl⟩
      · refine ⟨by simp [authenticate, hs], by intro t' h; simp [hs] at h,
          fun _ => by simp [authenticate, hs], ?_⟩
        simp [authenticate, hs]
    · by_cases hs : s = 200
      · subst hs
        exact ⟨by simp [authenticate], by intro t' h; simp at h,
          fun _ => rfl, rfl⟩
      · exact ⟨by simp [authenticate, hs], by intro t' h; simp [hs] at h,
          fun _ => by simp [authenticate, hs], by simp [authenticate, hs]⟩

/-- C8 witness: the amended contract applied at concrete outcomes. -/
theorem authenticate_token_contract_witness :
    authenticate (.http 200 (.result "TOK")) (some "old") =
      (true, some "TOK") ∧
    (authenticate (.exn "connection timed out") (some "old")).2 =
      some "old" := by
  constructor
  · exact (authenticate_token_contract (.http 200 (.result "TOK"))
      (some "old")).2.1 "TOK" rfl
  · exact (authenticate_token_contract (.exn "connection timed out")
      (some "old")).2.2.1 rfl

/-- The request submitted by one `create_host` call is either absent (the
auto-authentication failed before the POST) or carries exactly the
hostname as both `host` and `name`, the given IP, group, type and the
resolved port. -/
theorem create_host_req (a : RpcResponse String) (c : RpcResponse (List String))
    (tok : Option String) (h ip g : String) (t : Int) (p : Option String) :
    (create_host a c tok h ip g t p).2.2 = none ∨
    (create_host a c tok h ip g t p).2.2 =
      some ⟨h, h, g, t, ip, pyPort p t⟩ := by
  unfold create_host
  set auth : Bool × Option String :=
    if pyTruthyOpt tok then (true, tok) else authenticate a tok with hauth
  by_cases hb : auth.1
  · rcases c with e | ⟨s, b⟩
    · simp [hb]
    · by_cases hs : s = 200
      · subst hs
        rcases b with ids | ⟨d, m⟩
        · rcases ids with _ | ⟨i0, rest⟩ <;> simp [hb]
        · simp [hb]
      · simp [hb, hs]
  · simp [hb]

/-- Per-index characterization of the batch loop: one result and one
trace entry per input, with the hostname and IP determined by the input
entry and its 1-based index. -/
theorem createMultipleGo_get (envs : Nat → BatchItemEnv) (base gid : String)
    (uip : Bool) (t : Int) (p : Option String) :
    ∀ (ips : List String) (i0 : Nat) (tok : Option String),
      (createMultipleGo envs base gid uip t p i0 tok ips).1.length = ips.length ∧
      (createMultipleGo envs base gid uip t p i0 tok ips).2.1.length = ips.length ∧
      ∀ j, ((createMultipleGo envs base gid uip t p i0 tok ips).1.get? j).map
          (fun r => (r.hostname, r.ip)) =
        (ips.get? j).map (fun ip =>
          ((if uip then pyStrip ip else base ++ "-" ++ fmt02 (i0 + j)), pyStrip ip)) := by
  intro ips
  induction ips with
  | nil => intro i0 tok; simp [createMultipleGo]
  | cons ip rest ih =>
    intro i0 tok
    refine ⟨?_, ?_, ?_⟩
    · simp [createMultipleGo, (ih (i0 + 1) _).1]
    · simp [createMultipleGo, (ih (i0 + 1) _).2.1]
    · intro j
      cases j with
      | zero => simp [createMultipleGo]
      | succ j =>
        have h3 := (ih (i0 + 1)
          ((create_host (envs i0).authResp (envs i0).createResp tok
            (if uip then pyStrip ip else base ++ "-" ++ fmt02 i0) (pyStrip ip)
            gid t p).2.1)).2.2 j
        simp only [createMultipleGo, List.get?]
        rw [h3]
        simp only [show i0 + 1 + j = i0 + (j + 1) from by omega]

/-- Trace characterization: whenever the batch loop actually submitted a
`host.create` request for input position `j`, that request's `host`,
`name` and `ip` fields are determined by the stripped input entry. -/
theorem createMultipleGo_trace (envs : Nat → BatchItemEnv) (base gid : String)
    (uip : Bool) (t : Int) (p : Option String) :
    ∀ (ips : List String) (i0 : Nat) (tok : Option String) (j : Nat)
      (r : CreateRequest),
      (createMultipleGo envs base gid uip t p i0 tok ips).2.1.get? j =
          some (some r) →
      ∃ s, ips.get? j = some s ∧
        r.host = (if uip then pyStrip s else base ++ "-" ++ fmt02 (i0 + j)) ∧
        r.name = r.host ∧ r.ip = pyStrip s ∧ r.port = pyPort p t := by
  intro ips
  induction ips with
  | nil => intro i0 tok j r hr; simp [createMultipleGo] at hr
  | cons ip rest ih =>
    intro i0 tok j r hr
    cases j with
    | zero =>
      simp only [createMultipleGo, List.get?] at hr
      rcases create_host_req (envs i0).authResp (envs i0).createResp tok
        (if uip then pyStrip ip else base ++ "-" ++ fmt02 i0) (pyStrip ip)
        gid t p with hn | hsome
      · rw [hn] at hr; simp at hr
      · rw [hsome] at hr
        obtain rfl : (⟨(if uip then pyStrip ip else base ++ "-" ++ fmt02 i0),
            (if uip then pyStrip ip else base ++ "-" ++ fmt02 i0), gid, t,
            pyStrip ip, pyPort p t⟩ : CreateRequest) = r := by
          simpa using hr
        exact ⟨ip, by simp [Nat.add_zero], rfl, rfl, rfl, rfl⟩
    | succ j =>
      simp only [createMultipleGo, List.get?] at hr
      obtain ⟨s, hs, h1, h2, h3, h4⟩ := ih (i0 + 1) _ j r hr
      refine ⟨s, hs, ?_, h2, h3, h4⟩
      rw [h1]
      simp only [show i0 + 1 + j = i0 + (j + 1) from by omega]

/-- C1: `create_multiple_hosts` returns exactly one result record and one
trace slot per input address, in input order, for every pattern of
per-item transport outcomes (success, remote error, HTTP error or caught
exception): no failure on any item prevents later items from being
processed, and the record at position `j` always carries the stripped
`j`-th input address. -/
theorem batch_one_result_per_input (envs : Nat → BatchItemEnv)
    (tok : Option String) (base : String) (ips : List String) (gid : String)
    (uip : Bool) (t : Int) (p : Option String) :
    (create_multiple_hosts envs tok base ips gid uip t p).1.length =
      ips.length ∧
    (create_multiple_hosts envs tok base ips gid uip t p).2.1.length =
      ips.length ∧
    ∀ j, ((create_multiple_hosts envs tok base ips gid uip t p).1.get? j).map
        (fun r => r.ip) = (ips.get? j).map pyStrip := by
  obtain ⟨h1, h2, h3⟩ := createMultipleGo_get envs base gid uip t p ips 1 tok
  refine ⟨h1, h2, fun j => ?_⟩
  have := congrArg (Option.map Prod.snd) (h3 j)
  simpa [Option.map_map, Function.comp] using this

/-- C2: with `use_ip_as_hostname = False` the record at position `j` is
named `base-NN` where `NN` is the zero-padded 1-based sequence number;
with `use_ip_as_hostname = True` it is named by the stripped input
address — in both cases in input order, for every outcome pattern. -/
theorem batch_naming_rule (envs : Nat → BatchItemEnv) (tok : Option String)
    (base : String) (ips : List String) (gid : String) (t : Int)
    (p : Option String) (j : Nat) :
    ((create_multiple_hosts envs tok base ips gid false t p).1.get? j).map
        (fun r => r.hostname) =
      (ips.get? j).map (fun _ => base ++ "-" ++ fmt02 (j + 1)) ∧
    ((create_multiple_hosts envs tok base ips gid true t p).1.get? j).map
        (fun r => r.hostname) =
      (ips.get? j).map pyStrip := by
  constructor
  · have h := (createMultipleGo_get envs base gid false t p ips 1 tok).2.2 j
    have := congrArg (Option.map Prod.fst) h
    simp only [Option.map_map] at this
    simpa [Function.comp, show 1 + j = j + 1 from by omega] using this
  · have h := (createMultipleGo_get envs base gid true t p ips 1 tok).2.2 j
    have := congrArg (Option.map Prod.fst) h
    simp only [Option.map_map] at this
    simpa [Function.comp] using this

/-- C9: for every input address, leading/trailing whitespace is stripped
before use: the recorded address, the address in the submitted
`host.create` request, and (with `use_ip_as_hostname = True`) the host
name all equal the trimmed input entry. -/
theorem batch_trims_whitespace (envs : Nat → BatchItemEnv)
    (tok : Option String) (base : String) (ips : List String) (gid : String)
    (uip : Bool) (t : Int) (p : Option String) (j : Nat) (s : String)
    (hs : ips.get? j = some s) :
    ((create_multiple_hosts envs tok base ips gid uip t p).1.get? j).map
        (fun r => r.ip) = some (pyStrip s) ∧
    (∀ r, (create_multiple_hosts envs tok base ips gid uip t p).2.1.get? j =
        some (some r) →
      r.ip = pyStrip s ∧
      r.host = (if uip then pyStrip s else base ++ "-" ++ fmt02 (j + 1)) ∧
      r.name = r.host) ∧
    (uip = true →
      ((create_multiple_hosts envs tok base ips gid uip t p).1.get? j).map
        (fun r => r.hostname) = some (pyStrip s)) := by
  refine ⟨?_, ?_, ?_⟩
  · have := (batch_one_result_per_input envs tok base ips gid uip t p).2.2 j
    rw [this, hs]
    rfl
  · intro r hr
    obtain ⟨s', hs', h1, h2, h3, _⟩ := createMultipleGo_trace envs base gid
      uip t p ips 1 tok j r hr
    rw [hs] at hs'
    obtain rfl : s = s' := by injection hs'
    refine ⟨h3, ?_, h2⟩
    rw [show j + 1 = 1 + j from by omega]
    exact h1
  · intro huip
    subst huip
    have h := (createMultipleGo_get envs base gid true t p ips 1 tok).2.2 j
    have h2 := congrArg (Option.map Prod.fst) h
    simp only [Option.map_map] at h2
    rw [hs] at h2
    simpa [Function.comp, create_multiple_hosts] using h2

/-- C9 witness: a run with a whitespace-padded address records, submits
and names the trimmed form. -/
theorem batch_trims_whitespace_witness :
    ((create_multiple_hosts
        (fun _ => ⟨.http 200 (.result "T"), .http 200 (.result ["77"])⟩)
        (some "t") "X" [" 1.1.1.1 "] "5" true 1 none).1.get? 0).map
      (fun r => r.ip) = some "1.1.1.1" := by
  have h := (batch_trims_whitespace
    (fun _ => ⟨.http 200 (.result "T"), .http 200 (.result ["77"])⟩)
    (some "t") "X" [" 1.1.1.1 "] "5" true 1 none 0 " 1.1.1.1 " rfl).1
  rw [h]
  decide

theorem isPrefixOf_append (pat t : List Char) :
    pat.isPrefixOf (pat ++ t) = true := by
  induction pat with
  | nil => cases t <;> rfl
  | cons c cs ih => simp [List.isPrefixOf, ih]

theorem listContainsSub_cons (pat l : List Char) (c : Char)
    (h : listContainsSub pat l = true) :
    listContainsSub pat (c :: l) = true := by
  simp [listContainsSub, h]

theorem listContainsSub_of_parts (pat : List Char) :
    ∀ s t : List Char, listContainsSub pat (s ++ pat ++ t) = true := by
  intro s
  induction s with
  | nil =>
    intro t
    simp only [List.nil_append]
    cases hpat : pat with
    | nil =>
      cases t with
      | nil => rfl
      | cons c rest => rfl
    | cons c cs =>
      rw [show (c :: cs) ++ t = c :: (cs ++ t) from rfl]
      simp only [listContainsSub]
      rw [show (c : Char) :: (cs ++ t) = (c :: cs) ++ t from rfl,
        isPrefixOf_append]
      rfl
  | cons c cs ih =>
    intro t
    simpa using listContainsSub_cons pat (cs ++ pat ++ t) c (ih t)

/-- `strContains` holds for any parenthesisation of `pre ++ pat ++ post`. -/
theorem strContains_of_parts (pre pat post : String) :
    strContains (pre ++ pat ++ post) pat = true := by
  unfold strContains
  rw [String.data_append, String.data_append]
  exact listContainsSub_of_parts pat.data pre.data post.data

/-- C6 counterexample: a successful `create_host` whose platform-assigned
host id is `"10501"` returns a message that does not contain that id (the
id is only logged, never put in the message), contradicting "the returned
message includes the created host's platform-assigned id". -/
theorem create_host_message_cex :
    (create_host (.http 200 (.result "T")) (.http 200 (.result ["10501"]))
        (some "t") "srv" "1.2.3.4" "5" 1 none).1.1 = true ∧
    (create_host (.http 200 (.result "T")) (.http 200 (.result ["10501"]))
        (some "t") "srv" "1.2.3.4" "5" 1 none).1.2 =
      "Host srv created successfully with Agent interface" ∧
    strContains (create_host (.http 200 (.result "T"))
        (.http 200 (.result ["10501"])) (some "t") "srv" "1.2.3.4" "5" 1
        none).1.2 "10501" = false := by
  refine ⟨rfl, rfl, by decide⟩

/-- C6 (amended): on success the message is
`Host {name} created successfully with {label} interface` — it contains
the host *name* and the interface-type label (Agent/SNMP/IPMI/JMX), not
the platform-assigned id; on a remote-reported error the message embeds
the remote error `data` detail; on a non-200 HTTP response the message is
the generic `HTTP error creating host {name}` string. -/
theorem create_host_message_contract (a : RpcResponse String)
    (tok : Option String) (h ip g : String) (t : Int) (p : Option String) :
    (∀ c : RpcResponse (List String),
      (create_host a c tok h ip g t p).1.1 = true →
      (create_host a c tok h ip g t p).1.2 =
        "Host " ++ h ++ " created successfully with "
          ++ interfaceTypeName t ++ " interface" ∧
      strContains (create_host a c tok h ip g t p).1.2 h = true ∧
      strContains (create_host a c tok h ip g t p).1.2
        (interfaceTypeName t) = true) ∧
    (pyTruthyOpt tok = true →
      (∀ d m, (create_host a (.http 200 (.error (some d) m)) tok h ip g t
          p).1.2 = "Error creating host " ++ h ++ ": " ++ d ∧
        strContains (create_host a (.http 200 (.error (some d) m)) tok h ip
          g t p).1.2 d = true) ∧
      (∀ s b, s ≠ 200 →
        (create_host a (.http s b) tok h ip g t p).1.2 =
          "HTTP error creating host " ++ h)) := by
  constructor
  · intro c hsucc
    by_cases hb : (if pyTruthyOpt tok then (true, tok)
        else authenticate a tok).1 = true
    · rcases c with e | ⟨s, b⟩
      · simp [create_host, hb] at hsucc
      · by_cases hs : s = 200
        · subst hs
          rcases b with ids | ⟨d, m⟩
          · rcases ids with _ | ⟨i0, rest⟩
            · simp [create_host, hb] at hsucc
            · have hmsg : (create_host a (.http 200 (.result (i0 :: rest)))
                  tok h ip g t p).1.2 =
                  "Host " ++ h ++ " created successfully with "
                    ++ interfaceTypeName t ++ " interface" := by
                simp [create_host, hb]
              refine ⟨hmsg, ?_, ?_⟩
              · rw [hmsg]
                have := strContains_of_parts "Host " h
                  (" created successfully with "
                    ++ interfaceTypeName t ++ " interface")
                simpa [String.append_assoc] using this
              · rw [hmsg]
                exact strContains_of_parts
                  ("Host " ++ h ++ " created successfully with ")
                  (interfaceTypeName t) " interface"
          · simp [create_host, hb] at hsucc
        · simp [create_host, hb, hs] at hsucc
    · rw [Bool.not_eq_true] at hb
      simp [create_host, hb] at hsucc
  · intro htok
    constructor
    · intro d m
      have hmsg : (create_host a (.http 200 (.error (some d) m)) tok h ip g
          t p).1.2 = "Error creating host " ++ h ++ ": " ++ d := by
        simp [create_host, htok]
      refine ⟨hmsg, ?_⟩
      rw [hmsg]
      have := strContains_of_parts ("Error creating host " ++ h ++ ": ") d ""
      simpa [String.append_assoc] using this
    · intro s b hs
      simp [create_host, htok, hs]

/-- C6 witness: the message contract applied at a concrete successful
SNMP-interface creation. -/
theorem create_host_message_contract_witness :
    (create_host (.exn "x") (.http 200 (.result ["9"])) (some "t") "web"
        "10.0.0.1" "7" 2 none).1.2 =
      "Host web created successfully with SNMP interface" := by
  rw [((create_host_message_contract (.exn "x") (some "t") "web" "10.0.0.1"
    "7" 2 none).1 (.http 200 (.result ["9"])) rfl).1]
  decide

theorem exception_prefix_ne (e : String) :
    "Exception: " ++ e ≠ "No removable interface found" := by
  intro hcontra
  have h2 := congrArg String.data hcontra
  rw [String.data_append] at h2
  simp [String.data] at h2

theorem error_prefix_ne (e : String) :
    "Error: " ++ e ≠ "No removable interface found" := by
  intro hcontra
  have h2 := congrArg String.data hcontra
  rw [String.data_append] at h2
  simp [String.data] at h2

/-- No message produced by `remove_interface_from_host` can collide with
the distinguished `No removable interface found` record. -/
theorem remove_msg_ne (a : RpcResponse String) (r : RpcResponse (List String))
    (tok : Option String) (iid : String) :
    (remove_interface_from_host a r tok iid).1.2 ≠
      "No removable interface found" := by
  by_cases hb : (if pyTruthyOpt tok then (true, tok)
      else authenticate a tok).1 = true
  · rcases r with e | ⟨s, b⟩
    · simpa [remove_interface_from_host, hb] using exception_prefix_ne e
    · by_cases hs : s = 200
      · subst hs
        rcases b with x | ⟨d, m⟩
        · simp [remove_interface_from_host, hb]
        · simpa [remove_interface_from_host, hb] using
            error_prefix_ne (d.getD "Unknown error")
      · simp [remove_interface_from_host, hb, hs]
  · rw [Bool.not_eq_true] at hb
    simp [remove_interface_from_host, hb]

theorem exFilter_ok_eq (p : α → Except String Bool) (q : α → Bool)
    (hpq : ∀ x, (match p x with | .ok b => b | .error _ => false) = q x) :
    ∀ (xs ys : List α), exFilter p xs = .ok ys → ys = xs.filter q := by
  intro xs
  induction xs with
  | nil => intro ys hy; simpa [exFilter] using hy.symm
  | cons x rest ih =>
    intro ys hy
    cases hp : p x with
    | error e => simp [exFilter, hp] at hy
    | ok b =>
      cases hr : exFilter p rest with
      | error e => simp [exFilter, hp, hr] at hy
      | ok zs =>
        have hzs := ih zs hr
        have hq : q x = b := by rw [← hpq x, hp]
        simp only [exFilter, hp, hr, Except.ok.injEq] at hy
        cases b with
        | true =>
          simp only [if_true] at hy
          rw [← hy]
          simp [List.filter, hq, hzs]
        | false =>
          simp only [Bool.false_eq_true, if_false] at hy
          rw [← hy]
          simp [List.filter, hq, hzs]

theorem removeMatches_toBool (t : Int) (i : Iface) :
    (match removeMatches t i with | .ok b => b | .error _ => false) =
    (match pyInt i.type with
     | .ok v => v == t && i.main == "0"
     | .error _ => false) := by
  unfold removeMatches
  cases hv : pyInt i.type <;> simp [hv]

/-- The inner removal loop only appends removal-attempt records (whose
messages never collide with the no-removable record) and records exactly
the candidates' interface ids as issued delete calls. -/
theorem removeFold_spec (ce : Nat → CallEnv) (t : Int) (hn : String) :
    ∀ (tr : List Iface) (s : MassState),
      ((tr.foldl (removeFoldStep ce t hn) s).results.filter
          (fun r => r.message == "No removable interface found") =
        s.results.filter
          (fun r => r.message == "No removable interface found")) ∧
      (tr.foldl (removeFoldStep ce t hn) s).removeCalls =
        s.removeCalls ++ tr.map (fun i => i.interfaceid) ∧
      (tr.foldl (removeFoldStep ce t hn) s).addCalls = s.addCalls := by
  intro tr
  induction tr with
  | nil => intro s; simp
  | cons i rest ih =>
    intro s
    obtain ⟨h1, h2, h3⟩ := ih (removeFoldStep ce t hn s i)
    refine ⟨?_, ?_, ?_⟩
    · rw [List.foldl_cons, h1]
      simp only [removeFoldStep, List.filter_append]
      rw [show (List.filter (fun r => r.message ==
          "No removable interface found")
          [⟨hn, "remove", t, i.ip,
            (remove_interface_from_host (ce s.calls).authResp
              (ce s.calls).resp s.tok i.interfaceid).1.1,
            (remove_interface_from_host (ce s.calls).authResp
              (ce s.calls).resp s.tok i.interfaceid).1.2⟩] : List MassResult)
          = [] from ?_]
      · simp
      · simp only [List.filter, beq_false_of_ne (remove_msg_ne
          (ce s.calls).authResp (ce s.calls).resp s.tok i.interfaceid)]
    · rw [List.foldl_cons, h2]
      simp [removeFoldStep, List.append_assoc]
    · rw [List.foldl_cons, h3]
      rfl

/-- One `remove` iteration of the host loop: the issued delete calls are
exactly the non-main interfaces of the requested type, and the
no-removable failure record is appended exactly when there is no such
interface. -/
theorem massStep_remove_spec (ce : Nat → CallEnv) (t : Int) (port : String)
    (st : MassState) (h : Host) (st' : MassState)
    (hstep : massStep ce t port "remove" st h = .ok st') :
    st'.results.filter (fun r => r.message == "No removable interface found")
      = st.results.filter
          (fun r => r.message == "No removable interface found") ++
        (if (removableIfaces t h).isEmpty then [noRemovableRec t h] else []) ∧
    st'.removeCalls = st.removeCalls ++
      (removableIfaces t h).map (fun i => i.interfaceid) ∧
    st'.addCalls = st.addCalls := by
  cases hf : exFilter (removeMatches t) h.interfaces with
  | error e =>
    simp [massStep, hf] at hstep
  | ok tr =>
    have htr : tr = removableIfaces t h :=
      exFilter_ok_eq (removeMatches t) _ (removeMatches_toBool t)
        h.interfaces tr hf
    cases htr' : tr with
    | nil =>
      rw [htr'] at hf htr
      simp only [massStep, show (("remove" : String) == "add") = false
          from rfl, Bool.false_eq_true, if_false,
        show (("remove" : String) == "remove") = true from rfl, if_true,
        hf, Except.ok.injEq] at hstep
      rw [← hstep]
      refine ⟨?_, ?_, rfl⟩
      · rw [← htr]
        simp [List.filter_append, noRemovableRec, List.filter]
      · rw [← htr]
        simp
    | cons i0 rest =>
      rw [htr'] at hf htr
      simp only [massStep, show (("remove" : String) == "add") = false
          from rfl, Bool.false_eq_true, if_false,
        show (("remove" : String) == "remove") = true from rfl, if_true,
        hf, Except.ok.injEq] at hstep
      rw [← hstep]
      obtain ⟨h1, h2, h3⟩ := removeFold_spec ce t h.name (i0 :: rest) st
      refine ⟨?_, ?_, h3⟩
      · rw [h1, ← htr]
        simp
      · rw [h2, ← htr]

/-- The whole `remove` loop: the distinguished no-removable failure
records are exactly one per host without a removable interface (in host
order), and the issued delete calls are exactly the candidates' ids. -/
theorem massLoop_remove_spec (ce : Nat → CallEnv) (t : Int) (port : String) :
    ∀ (hosts : List Host) (st st' : MassState),
      massLoop ce t port "remove" st hosts = .ok st' →
      st'.results.filter
          (fun r => r.message == "No removable interface found") =
        st.results.filter
          (fun r => r.message == "No removable interface found") ++
          (hosts.filter (fun h => (removableIfaces t h).isEmpty)).map
            (noRemovableRec t) ∧
      st'.removeCalls = st.removeCalls ++
        (hosts.map (fun h =>
          (removableIfaces t h).map (fun i => i.interfaceid))).flatten := by
  intro hosts
  induction hosts with
  | nil =>
    intro st st' hstep
    simp only [massLoop, Except.ok.injEq] at hstep
    rw [← hstep]
    simp
  | cons h hs ih =>
    intro st st' hstep
    cases hm : massStep ce t port "remove" st h with
    | error e => simp [massLoop, hm] at hstep
    | ok st1 =>
      simp only [massLoop, hm] at hstep
      obtain ⟨f1, r1, _⟩ := massStep_remove_spec ce t port st h st1 hm
      obtain ⟨f2, r2⟩ := ih st1 st' hstep
      constructor
      · rw [f2, f1]
        cases hemp : (removableIfaces t h).isEmpty <;>
          simp [hemp, List.filter_cons, List.append_assoc]
      · rw [r2, r1]
        simp [List.append_assoc]

/-- C3: with operation `remove`, every `hostinterface.delete` the client
issues targets an interface of the requested type whose `main` flag is
`'0'` (a main-flagged interface is never passed to
`remove_interface_from_host`), and the `No removable interface found`
failure records are exactly one per host that has no non-main interface of
the requested type — never zero for such a host. -/
theorem mass_remove_safety (ghEnv : CallEnv)
    (hostsResp : RpcResponse (List Host)) (callEnvs : Nat → CallEnv)
    (tok : Option String) (gid : String) (itype : Int) (port : String)
    (st : MassState)
    (hok : mass_update_interfaces ghEnv hostsResp callEnvs tok gid itype
      port "remove" = .ok st) :
    (∀ iid ∈ st.removeCalls,
      ∃ h, h ∈ (get_hosts_by_group ghEnv.authResp hostsResp tok gid).1 ∧
        ∃ ifc, ifc ∈ h.interfaces ∧ ifc.interfaceid = iid ∧
          pyInt ifc.type = .ok itype ∧ ifc.main = "0") ∧
    st.results.filter (fun r => r.message == "No removable interface found")
      = (((get_hosts_by_group ghEnv.authResp hostsResp tok gid).1.filter
          (fun h => (removableIfaces itype h).isEmpty)).map
            (noRemovableRec itype)) := by
  unfold mass_update_interfaces at hok
  obtain ⟨hf, hr⟩ := massLoop_remove_spec callEnvs itype port
    (get_hosts_by_group ghEnv.authResp hostsResp tok gid).1 _ st hok
  constructor
  · intro iid hiid
    rw [hr] at hiid
    simp only [List.nil_append, List.mem_flatten, List.mem_map] at hiid
    obtain ⟨l, ⟨h, hh, rfl⟩, hmem⟩ := hiid
    obtain ⟨ifc, hifc, rfl⟩ := List.mem_map.mp hmem
    refine ⟨h, hh, ifc, ?_, rfl, ?_, ?_⟩
    · exact List.mem_of_mem_filter hifc
    · have hp := List.of_mem_filter hifc
      cases hv : pyInt ifc.type with
      | error e => rw [hv] at hp; simp at hp
      | ok v =>
        rw [hv] at hp
        simp only [Bool.and_eq_true, beq_iff_eq] at hp
        rw [hp.1]
    · have hp := List.of_mem_filter hifc
      cases hv : pyInt ifc.type with
      | error e => rw [hv] at hp; simp at hp
      | ok v =>
        rw [hv] at hp
        simp only [Bool.and_eq_true, beq_iff_eq] at hp
        exact hp.2
  · rw [hf]
    simp

/-- C3 witness: a group with one host whose only SNMP interface is main
yields exactly one `No removable interface found` failure record and no
delete call. -/
theorem mass_remove_safety_witness :
    ∃ st, mass_update_interfaces
        ⟨.http 200 (.result "T"), .exn "x"⟩
        (.http 200 (.result
          [⟨"h1", "HostA", [⟨"i1", "1.1.1.1", "", "161", "2", "1"⟩]⟩]))
        (fun _ => ⟨.http 200 (.result "T"), .http 200 (.result ["9"])⟩)
        (some "t") "5" 2 "161" "remove" = .ok st ∧
      st.removeCalls = [] ∧
      st.results.filter (fun r => r.message == "No removable interface found")
        = [⟨"HostA", "remove", 2, "N/A", false,
            "No removable interface found"⟩] := by
  refine ⟨⟨[⟨"HostA", "remove", 2, "N/A", false,
      "No removable interface found"⟩], [], [], some "t", 0⟩, ?_, rfl, ?_⟩
  · rfl
  · have h := (mass_remove_safety ⟨.http 200 (.result "T"), .exn "x"⟩
      (.http 200 (.result
        [⟨"h1", "HostA", [⟨"i1", "1.1.1.1", "", "161", "2", "1"⟩]⟩]))
      (fun _ => ⟨.http 200 (.result "T"), .http 200 (.result ["9"])⟩)
      (some "t") "5" 2 "161"
      ⟨[⟨"HostA", "remove", 2, "N/A", false,
        "No removable interface found"⟩], [], [], some "t", 0⟩
      rfl).2
    rw [h]
    decide

/-- One `add` iteration of the host loop: the issued interface-create call
(if any) is `addDecision`, exactly one result record is appended, and that
record is the environment-independent one whenever `addFixedResult` gives
one (already-exists or no-IP failure). -/
theorem massStep_add_spec (ce : Nat → CallEnv) (t : Int) (port : String)
    (st : MassState) (h : Host) (st' : MassState)
    (hstep : massStep ce t port "add" st h = .ok st') :
    st'.addCalls = st.addCalls ++ (addDecision t port h).toList ∧
    (∃ rec, st'.results = st.results ++ [rec] ∧
      ∀ r0, addFixedResult t h = some r0 → rec = r0) ∧
    st'.removeCalls = st.removeCalls := by
  cases hip : pyTruthyOpt (sourceIp h.interfaces) with
  | false =>
    simp only [massStep, show (("add" : String) == "add") = true from rfl,
      if_true, hip, Bool.false_eq_true, if_false, Except.ok.injEq] at hstep
    rw [← hstep]
    refine ⟨by simp [addDecision, hip], ⟨_, rfl, ?_⟩, rfl⟩
    intro r0 hr0
    simp only [addFixedResult, hip, Bool.false_eq_true, if_false,
      Option.some.injEq] at hr0
    rw [← hr0]
  | true =>
    cases he : exAny (typeMatches t) h.interfaces with
    | error e =>
      simp [massStep, hip, he] at hstep
    | ok ex =>
      cases ex with
      | true =>
        simp only [massStep, show (("add" : String) == "add") = true
            from rfl, if_true, hip, he, Bool.not_true, Bool.false_eq_true,
          if_false, Except.ok.injEq] at hstep
        rw [← hstep]
        refine ⟨by simp [addDecision, hip, he], ⟨_, rfl, ?_⟩, rfl⟩
        intro r0 hr0
        simp only [addFixedResult, hip, if_true, he,
          Option.some.injEq] at hr0
        rw [← hr0]
      | false =>
        cases hm : exAny (mainMatches t) h.interfaces with
        | error e =>
          simp [massStep, hip, he, hm] at hstep
        | ok mb =>
          simp only [massStep, show (("add" : String) == "add") = true
              from rfl, if_true, hip, he, Bool.not_false, if_true, hm,
            Except.ok.injEq] at hstep
          rw [← hstep]
          refine ⟨by simp [addDecision, hip, he, hm], ⟨_, rfl, ?_⟩, rfl⟩
          intro r0 hr0
          simp [addFixedResult, hip, he] at hr0

/-- The whole `add` loop: the issued interface-create calls are exactly
the per-host decisions in host order; one result per host; earlier
records are never rewritten; the record of host `j` is its fixed record
whenever that is environment-independent. -/
theorem massLoop_add_spec (ce : Nat → CallEnv) (t : Int) (port : String) :
    ∀ (hosts : List Host) (st st' : MassState),
      massLoop ce t port "add" st hosts = .ok st' →
      st'.addCalls = st.addCalls ++ hosts.filterMap (addDecision t port) ∧
      st'.results.length = st.results.length + hosts.length ∧
      (∀ idx, idx < st.results.length →
        st'.results.get? idx = st.results.get? idx) ∧
      (∀ j h, hosts.get? j = some h → ∀ r0, addFixedResult t h = some r0 →
        st'.results.get? (st.results.length + j) = some r0) := by
  intro hosts
  induction hosts with
  | nil =>
    intro st st' hstep
    simp only [massLoop, Except.ok.injEq] at hstep
    rw [← hstep]
    refine ⟨by simp, by simp, fun idx _ => rfl, ?_⟩
    intro j h hj
    simp at hj
  | cons h hs ih =>
    intro st st' hstep
    cases hm : massStep ce t port "add" st h with
    | error e => simp [massLoop, hm] at hstep
    | ok st1 =>
      simp only [massLoop, hm] at hstep
      obtain ⟨ha, ⟨rec, hres, hfix⟩, _⟩ := massStep_add_spec ce t port st h
        st1 hm
      obtain ⟨a2, l2, p2, g2⟩ := ih st1 st' hstep
      have hlen1 : st1.results.length = st.results.length + 1 := by
        rw [hres]; simp
      refine ⟨?_, ?_, ?_, ?_⟩
      · rw [a2, ha, List.filterMap_cons]
        cases hd : addDecision t port h <;>
          simp [hd, Option.toList, List.append_assoc]
      · rw [l2, hlen1]
        simp [List.length_cons]
        omega
      · intro idx hidx
        rw [p2 idx (by omega), hres, List.get?_append hidx]
      · intro j h' hh' r0 hr0
        cases j with
        | zero =>
          injection hh' with hh'
          subst hh'
          rw [show st.results.length + 0 = st.results.length from rfl,
            p2 st.results.length (by omega), hres,
            List.get?_concat_length]
          exact congrArg some (hfix r0 hr0)
        | succ j =>
          have hg := g2 j h' (by simpa using hh') r0 hr0
          rw [show st.results.length + (j + 1) = st1.results.length + j
            from by omega]
          exact hg

/-- C4 counterexample: a host that already carries an interface of the
requested type (a type-2/SNMP interface, here DNS-based with an empty IP)
gets the failure message `No IP address found`, not one indicating the
type already exists: the IP-sourcing check (lines 411-421) runs before the
existence check (line 423).  No create call is issued. -/
theorem mass_add_skip_cex :
    mass_update_interfaces ⟨.http 200 (.result "T"), .exn "x"⟩
        (.http 200 (.result
          [⟨"h5", "HostE", [⟨"i7", "", "dns", "161", "2", "1"⟩]⟩]))
        (fun _ => ⟨.http 200 (.result "T"), .http 200 (.result ["9"])⟩)
        (some "t") "5" 2 "161" "add"
      = .ok ⟨[⟨"HostE", "add", 2, "N/A", false, "No IP address found"⟩],
          [], [], some "t", 0⟩ ∧
    strContains "No IP address found" "already exists" = false := by
  exact ⟨rfl, by decide⟩

/-- C4 (amended): a host that already carries an interface of the
requested type **and** has a truthy sourced address records exactly the
`Interface type already exists` failure at its position, and no
`add_interface_to_host` call is issued for it (its decision is `none`,
and the issued calls are exactly the per-host decisions); a host carrying
the type whose sourced address is falsy instead records
`No IP address found` — still with no create call. -/
theorem mass_add_skip_contract (ghEnv : CallEnv)
    (hostsResp : RpcResponse (List Host)) (callEnvs : Nat → CallEnv)
    (tok : Option String) (gid : String) (itype : Int) (port : String)
    (st : MassState)
    (hok : mass_update_interfaces ghEnv hostsResp callEnvs tok gid itype
      port "add" = .ok st)
    (j : Nat) (h : Host)
    (hj : (get_hosts_by_group ghEnv.authResp hostsResp tok gid).1.get? j =
      some h)
    (hty : exAny (typeMatches itype) h.interfaces = .ok true) :
    (pyTruthyOpt (sourceIp h.interfaces) = true →
      st.results.get? j = some ⟨h.name, "add", itype,
        (sourceIp h.interfaces).getD "", false,
        "Interface type already exists"⟩) ∧
    (pyTruthyOpt (sourceIp h.interfaces) = false →
      st.results.get? j = some ⟨h.name, "add", itype, "N/A", false,
        "No IP address found"⟩) ∧
    addDecision itype port h = none ∧
    st.addCalls = (get_hosts_by_group ghEnv.authResp hostsResp tok
      gid).1.filterMap (addDecision itype port) := by
  simp only [mass_update_interfaces] at hok
  obtain ⟨a2, l2, p2, g2⟩ := massLoop_add_spec callEnvs itype port _ _ st hok
  refine ⟨?_, ?_, ?_, ?_⟩
  · intro hip
    have hfix : addFixedResult itype h = some ⟨h.name, "add", itype,
        (sourceIp h.interfaces).getD "", false,
        "Interface type already exists"⟩ := by
      simp [addFixedResult, hip, hty]
    have hg := g2 j h hj _ hfix
    simpa using hg
  · intro hip
    have hfix : addFixedResult itype h = some ⟨h.name, "add", itype, "N/A",
        false, "No IP address found"⟩ := by
      simp [addFixedResult, hip]
    have hg := g2 j h hj _ hfix
    simpa using hg
  · cases hip : pyTruthyOpt (sourceIp h.interfaces) <;>
      simp [addDecision, hip, hty]
  · simpa using a2

/-- C4 witness: a host with Agent and SNMP interfaces asked to `add` SNMP
records the already-exists failure and issues no create call. -/
theorem mass_add_skip_contract_witness :
    ∃ st, mass_update_interfaces ⟨.http 200 (.result "T"), .exn "x"⟩
        (.http 200 (.result [⟨"h1", "HostA",
          [⟨"i1", "1.1.1.1", "", "10050", "1", "1"⟩,
           ⟨"i2", "1.1.1.1", "", "161", "2", "1"⟩]⟩]))
        (fun _ => ⟨.http 200 (.result "T"), .http 200 (.result ["9"])⟩)
        (some "t") "5" 2 "161" "add" = .ok st ∧
      st.results.get? 0 = some ⟨"HostA", "add", 2, "1.1.1.1", false,
        "Interface type already exists"⟩ ∧
      st.addCalls = [] := by
  refine ⟨⟨[⟨"HostA", "add", 2, "1.1.1.1", false,
      "Interface type already exists"⟩], [], [], some "t", 0⟩, rfl, ?_, rfl⟩
  have hg := (mass_add_skip_contract ⟨.http 200 (.result "T"), .exn "x"⟩
    (.http 200 (.result [⟨"h1", "HostA",
      [⟨"i1", "1.1.1.1", "", "10050", "1", "1"⟩,
       ⟨"i2", "1.1.1.1", "", "161", "2", "1"⟩]⟩]))
    (fun _ => ⟨.http 200 (.result "T"), .http 200 (.result ["9"])⟩)
    (some "t") "5" 2 "161"
    ⟨[⟨"HostA", "add", 2, "1.1.1.1", false,
      "Interface type already exists"⟩], [], [], some "t", 0⟩
    rfl 0 ⟨"h1", "HostA",
      [⟨"i1", "1.1.1.1", "", "10050", "1", "1"⟩,
       ⟨"i2", "1.1.1.1", "", "161", "2", "1"⟩]⟩ rfl rfl).1 rfl
  exact hg.trans rfl

/-- C5 counterexample: a host with no interfaces gets the single failure
record `No IP address found` — not the message `no address found` stated
by the claim — and no create call. -/
theorem mass_add_source_cex :
    mass_update_interfaces ⟨.http 200 (.result "T"), .exn "x"⟩
        (.http 200 (.result [⟨"h3", "HostC", []⟩]))
        (fun _ => ⟨.http 200 (.result "T"), .http 200 (.result ["9"])⟩)
        (some "t") "5" 2 "161" "add"
      = .ok ⟨[⟨"HostC", "add", 2, "N/A", false, "No IP address found"⟩],
          [], [], some "t", 0⟩ ∧
    "No IP address found" ≠ "no address found" := by
  exact ⟨rfl, by decide⟩

/-- C5 (amended): for a host processed by `add`, the sourced address is
the host's Agent-type (`type == '1'`) interface's IP when that IP is
non-empty; otherwise (no Agent interface, or its IP empty) the first
interface's IP; when the sourced address is falsy (empty or no
interfaces) the host gets the single failure record
`No IP address found` and no create call; when it is truthy and no
interface of the requested type exists, the issued create call carries
exactly the sourced address. -/
theorem mass_add_source_contract (ghEnv : CallEnv)
    (hostsResp : RpcResponse (List Host)) (callEnvs : Nat → CallEnv)
    (tok : Option String) (gid : String) (itype : Int) (port : String)
    (st : MassState)
    (hok : mass_update_interfaces ghEnv hostsResp callEnvs tok gid itype
      port "add" = .ok st)
    (j : Nat) (h : Host)
    (hj : (get_hosts_by_group ghEnv.authResp hostsResp tok gid).1.get? j =
      some h) :
    (∀ ag, h.interfaces.find? (fun i => i.type == "1") = some ag →
      pyTruthy ag.ip = true → sourceIp h.interfaces = some ag.ip) ∧
    (∀ f rest, h.interfaces = f :: rest →
      (f :: rest).find? (fun i => i.type == "1") = none →
      sourceIp h.interfaces = some f.ip) ∧
    (∀ ag f rest, h.interfaces = f :: rest →
      (f :: rest).find? (fun i => i.type == "1") = some ag →
      pyTruthy ag.ip = false → sourceIp h.interfaces = some f.ip) ∧
    (pyTruthyOpt (sourceIp h.interfaces) = false →
      st.results.get? j = some ⟨h.name, "add", itype, "N/A", false,
        "No IP address found"⟩ ∧
      addDecision itype port h = none) ∧
    (pyTruthyOpt (sourceIp h.interfaces) = true →
      exAny (typeMatches itype) h.interfaces = .ok false →
      ∃ c, addDecision itype port h = some c ∧
        c.ip = (sourceIp h.interfaces).getD "" ∧
        c.host_id = h.hostid ∧ c.port = port) ∧
    st.addCalls = (get_hosts_by_group ghEnv.authResp hostsResp tok
      gid).1.filterMap (addDecision itype port) ∧
    st.results.length =
      (get_hosts_by_group ghEnv.authResp hostsResp tok gid).1.length := by
  simp only [mass_update_interfaces] at hok
  obtain ⟨a2, l2, p2, g2⟩ := massLoop_add_spec callEnvs itype port _ _ st hok
  refine ⟨?_, ?_, ?_, ?_, ?_, ?_, ?_⟩
  · intro ag hfind hag
    simp [sourceIp, hfind, pyTruthyOpt, hag]
  · intro f rest hfr hfind
    rw [hfr]
    simp [sourceIp, hfind, pyTruthyOpt]
  · intro ag f rest hfr hfind hag
    rw [hfr]
    simp [sourceIp, hfind, pyTruthyOpt, hag]
  · intro hip
    have hfix : addFixedResult itype h = some ⟨h.name, "add", itype, "N/A",
        false, "No IP address found"⟩ := by
      simp [addFixedResult, hip]
    have hg := g2 j h hj _ hfix
    exact ⟨by simpa using hg, by simp [addDecision, hip]⟩
  · intro hip hty0
    refine ⟨⟨h.hostid, itype, (sourceIp h.interfaces).getD "", port,
      match exAny (mainMatches itype) h.interfaces with
      | .ok b => !b
      | .error _ => true⟩, ?_, rfl, rfl, rfl⟩
    simp [addDecision, hip, hty0]
  · simpa using a2
  · simpa using l2

/-- C5 witness: a host with no Agent interface sources the new SNMP
interface's address from its first interface's IP, and the issued create
call carries exactly that address. -/
theorem mass_add_source_contract_witness :
    ∃ st, mass_update_interfaces ⟨.http 200 (.result "T"), .exn "x"⟩
        (.http 200 (.result [⟨"h7", "HostG",
          [⟨"i9", "9.9.9.9", "", "623", "3", "0"⟩]⟩]))
        (fun _ => ⟨.http 200 (.result "T"), .http 200 (.result ["9"])⟩)
        (some "t") "5" 2 "161" "add" = .ok st ∧
      st.addCalls = [⟨"h7", 2, "9.9.9.9", "161", true⟩] := by
  refine ⟨⟨[⟨"HostG", "add", 2, "9.9.9.9", true,
      "Interface added successfully"⟩],
    [⟨"h7", 2, "9.9.9.9", "161", true⟩], [], some "t", 1⟩, rfl, ?_⟩
  have ha := (mass_add_source_contract ⟨.http 200 (.result "T"), .exn "x"⟩
    (.http 200 (.result [⟨"h7", "HostG",
      [⟨"i9", "9.9.9.9", "", "623", "3", "0"⟩]⟩]))
    (fun _ => ⟨.http 200 (.result "T"), .http 200 (.result ["9"])⟩)
    (some "t") "5" 2 "161"
    ⟨[⟨"HostG", "add", 2, "9.9.9.9", true, "Interface added successfully"⟩],
      [⟨"h7", 2, "9.9.9.9", "161", true⟩], [], some "t", 1⟩
    rfl 0 ⟨"h7", "HostG", [⟨"i9", "9.9.9.9", "", "623", "3", "0"⟩]⟩
    rfl).2.2.2.2.2.1
  exact ha.trans rfl

theorem typeMatches_ok (t : Int) (i : Iface) (hv : ∃ v, pyInt i.type = .ok v) :
    ∃ b, typeMatches t i = .ok b := by
  obtain ⟨v, hv⟩ := hv
  exact ⟨v == t, by simp [typeMatches, hv]⟩

theorem mainMatches_ok (t : Int) (i : Iface) (hv : ∃ v, pyInt i.type = .ok v) :
    ∃ b, mainMatches t i = .ok b := by
  obtain ⟨v, hv⟩ := hv
  exact ⟨v == t && i.main == "1", by simp [mainMatches, hv]⟩

theorem removeMatches_ok (t : Int) (i : Iface)
    (hv : ∃ v, pyInt i.type = .ok v) :
    ∃ b, removeMatches t i = .ok b := by
  obtain ⟨v, hv⟩ := hv
  exact ⟨v == t && i.main == "0", by simp [removeMatches, hv]⟩

theorem exAny_ok (p : α → Except String Bool) :
    ∀ xs : List α, (∀ x ∈ xs, ∃ b, p x = .ok b) →
    ∃ b, exAny p xs = .ok b := by
  intro xs
  induction xs with
  | nil => intro _; exact ⟨false, rfl⟩
  | cons x rest ih =>
    intro hx
    obtain ⟨b, hb⟩ := hx x (List.mem_cons_self x rest)
    obtain ⟨c, hc⟩ := ih (fun y hy => hx y (List.mem_cons_of_mem x hy))
    cases b with
    | true => exact ⟨true, by simp [exAny, hb]⟩
    | false => exact ⟨c, by simp [exAny, hb, hc]⟩

theorem exFilter_ok (p : α → Except String Bool) :
    ∀ xs : List α, (∀ x ∈ xs, ∃ b, p x = .ok b) →
    ∃ ys, exFilter p xs = .ok ys := by
  intro xs
  induction xs with
  | nil => intro _; exact ⟨[], rfl⟩
  | cons x rest ih =>
    intro hx
    obtain ⟨b, hb⟩ := hx x (List.mem_cons_self x rest)
    obtain ⟨ys, hys⟩ := ih (fun y hy => hx y (List.mem_cons_of_mem x hy))
    exact ⟨if b then x :: ys else ys, by simp [exFilter, hb, hys]⟩

/-- The per-host loop body cannot fail when every interface `type` field
is a numeric wire string (which is all the Zabbix protocol produces): the
only raise points in the source's loop are the `int(...)` conversions. -/
theorem massStep_total (ce : Nat → CallEnv) (t : Int) (port op : String)
    (st : MassState) (h : Host)
    (hW : ∀ i ∈ h.interfaces, ∃ v, pyInt i.type = .ok v) :
    ∃ st', massStep ce t port op st h = .ok st' := by
  cases hM : massStep ce t port op st h with
  | ok st' => exact ⟨st', rfl⟩
  | error e =>
    exfalso
    by_cases hop : (op == "add") = true
    · by_cases hip : pyTruthyOpt (sourceIp h.interfaces) = true
      · obtain ⟨b, hb⟩ := exAny_ok (typeMatches t) h.interfaces
          (fun i hi => typeMatches_ok t i (hW i hi))
        cases b with
        | true => simp [massStep, hop, hip, hb] at hM
        | false =>
          obtain ⟨c, hc⟩ := exAny_ok (mainMatches t) h.interfaces
            (fun i hi => mainMatches_ok t i (hW i hi))
          simp [massStep, hop, hip, hb, hc] at hM
      · rw [Bool.not_eq_true] at hip
        simp [massStep, hop, hip] at hM
    · by_cases hop2 : (op == "remove") = true
      · obtain ⟨ys, hys⟩ := exFilter_ok (removeMatches t) h.interfaces
          (fun i hi => removeMatches_ok t i (hW i hi))
        cases ys with
        | nil => simp [massStep, hop, hop2, hys] at hM
        | cons y rest => simp [massStep, hop, hop2, hys] at hM
      · simp [massStep, hop, hop2] at hM

theorem massLoop_total (ce : Nat → CallEnv) (t : Int) (port op : String) :
    ∀ (hosts : List Host) (st : MassState),
      (∀ h ∈ hosts, ∀ i ∈ h.interfaces, ∃ v, pyInt i.type = .ok v) →
      ∃ st', massLoop ce t port op st hosts = .ok st' := by
  intro hosts
  induction hosts with
  | nil => intro st _; exact ⟨st, rfl⟩
  | cons h hs ih =>
    intro st hW
    obtain ⟨st1, h1⟩ := massStep_total ce t port op st h
      (hW h (List.mem_cons_self h hs))
    obtain ⟨st', h2⟩ := ih st1
      (fun g hg => hW g (List.mem_cons_of_mem h hg))
    exact ⟨st', by simp [massLoop, h1, h2]⟩

/-- C7: every public client operation is total at its boundary.  Any
exception raised inside a `try` block (transport error, timeout, decode
failure) is converted to a `(False, message)` pair or an empty list, for
`authenticate`, `create_host`, `add_interface_to_host`,
`remove_interface_from_host`, `get_host_groups` and `get_hosts_by_group`;
`create_multiple_hosts` returns one record per input under every outcome
pattern; and `mass_update_interfaces` — whose loop body is not wrapped in
`try` — still completes without an uncaught error whenever the fetched
hosts carry numeric wire `type` strings, which covers every transport,
protocol, or logical failure (those all surface before the loop or inside
the wrapped unit calls). -/
theorem client_total_on_failures (e : String) (a : RpcResponse String)
    (tok : Option String) (hn ip gid hid iid : String) (t : Int)
    (p : Option String) (port : String) (envs : Nat → BatchItemEnv)
    (ips : List String) (base : String) (uip : Bool) (ghEnv : CallEnv)
    (hostsResp : RpcResponse (List Host)) (callEnvs : Nat → CallEnv)
    (op : String)
    (hW : ∀ h ∈ (get_hosts_by_group ghEnv.authResp hostsResp tok gid).1,
      ∀ i ∈ h.interfaces, ∃ v, pyInt i.type = .ok v) :
    authenticate (.exn e) tok = (false, tok) ∧
    (create_host a (.exn e) (some "T") hn ip gid t p).1 =
      (false, "Exception creating host " ++ hn ++ ": " ++ e) ∧
    (add_interface_to_host a (.exn e) (some "T") hid t ip port true).1 =
      (false, "Exception: " ++ e) ∧
    (remove_interface_from_host a (.exn e) (some "T") iid).1 =
      (false, "Exception: " ++ e) ∧
    (get_host_groups a (.exn e) tok).1 = [] ∧
    (get_hosts_by_group a (.exn e) tok gid).1 = [] ∧
    (create_multiple_hosts envs tok base ips gid uip t p).1.length =
      ips.length ∧
    ∃ st, mass_update_interfaces ghEnv hostsResp callEnvs tok gid t port op
      = .ok st := by
  refine ⟨rfl, rfl, rfl, rfl, ?_, ?_, ?_, ?_⟩
  · by_cases hb : (if pyTruthyOpt tok then (true, tok)
        else authenticate a tok).1 = true
    · simp [get_host_groups, hb]
    · rw [Bool.not_eq_true] at hb
      simp [get_host_groups, hb]
  · by_cases hb : (if pyTruthyOpt tok then (true, tok)
        else authenticate a tok).1 = true
    · simp [get_hosts_by_group, hb]
    · rw [Bool.not_eq_true] at hb
      simp [get_hosts_by_group, hb]
  · exact (createMultipleGo_get envs base gid uip t p ips 1 tok).1
  · simp only [mass_update_interfaces]
    exact massLoop_total callEnvs t port op _ _ hW

/-- C7 witness: the totality contract applied at concrete failing
outcomes (a timeout exception on every POST, an empty host group). -/
theorem client_total_on_failures_witness :
    (create_host (.exn "a") (.exn "timeout") (some "T") "web" "1.1.1.1"
        "5" 2 none).1 = (false, "Exception creating host web: timeout") ∧
    ∃ st, mass_update_interfaces ⟨.exn "a", .exn "a"⟩
        (.http 200 (.result [])) (fun _ => ⟨.exn "a", .exn "a"⟩) none "5" 2
        "161" "add" = .ok st := by
  have h := client_total_on_failures "timeout" (.exn "a") none "web"
    "1.1.1.1" "5" "9" "i1" 2 none "161" (fun _ => ⟨.exn "a", .exn "a"⟩)
    [] "X" false ⟨.exn "a", .exn "a"⟩ (.http 200 (.result []))
    (fun _ => ⟨.exn "a", .exn "a"⟩) "add"
    (by
      intro g hg
      rw [show (get_hosts_by_group (RpcResponse.exn "a")
        (RpcResponse.http 200 (RpcBody.result ([] : List Host))) none
        "5").1 = [] from rfl] at hg
      simp at hg)
  exact ⟨h.2.1, h.2.2.2.2.2.2.2⟩
